import Mathlib

/-!
# Verification of the Room Session & State-Diff Translation Layer

A shallow embedding of `src/services/Network.ts` from the momstown-client
repository, together with theorems settling the specification's claims
about it.

The embedding models:
* the message vocabulary used by `Network.ts` (`Message.*` enum members),
* the semantic events emitted on the phaser event bus (`Event.*`) and the
  store dispatches,
* the collection diff handlers registered in `initialize()`
  (`players.onAdd`, `player.onChange`, `players.onRemove`,
  `tables.onAdd`, `chatMessages.onAdd`, `onMessage` handlers,
  `onStateChange`),
* the outbound send methods (`updatePlayer`, `updatePlayerName`, …,
  `sendPrivateMessage`, `checkPrivateMessage`), all of which go through
  the optional-chained `this.room?.send`,
* the room-assignment behaviour of the three join methods
  (`joinOrCreatePublic`, `joinCustomById`, `createCustom`), each of which
  executes `this.room = await …; this.initialize()` when it resolves.
-/

namespace Momstown

/-- Outbound/inbound message kinds, as used by `Network.ts`
(`Message.UPDATE_PLAYER`, `Message.SEND_DM`, …). -/
inductive Message where
  | UPDATE_PLAYER
  | UPDATE_PLAYER_NAME
  | READY_TO_CONNECT
  | VIDEO_CONNECTED
  | DISCONNECT_STREAM
  | CONNECT_TO_TABLE
  | UPDATE_CHAIR_STATUS
  | DISCONNECT_FROM_TABLE
  | STOP_TABLE_TALK
  | ADD_CHAT_MESSAGE
  | SEND_DM
  | RECEIVE_DM
  | SEND_ROOM_DATA
  deriving DecidableEq, Repr

/-- A primitive JavaScript value appearing in a payload field or in a
schema field change (`string`, `number`, `boolean`, `undefined`, `null`). -/
inductive JSVal where
  | str (s : String)
  | num (n : Int)
  | boolean (b : Bool)
  | undef
  | null
  deriving DecidableEq, Repr

/-- JavaScript loose/strict inequality `value !== ""` as evaluated at
`Network.ts:130`: it is `false` exactly when `value` is the empty string;
any non-string value is `!== ""`. -/
def jsNeqEmptyStr : JSVal → Bool
  | .str s => s ≠ ""
  | _ => true

/-- One entry of the `changes` batch delivered to `player.onChange`:
a `{ field, value }` pair. -/
structure FieldChange where
  field : String
  value : JSVal
  deriving DecidableEq, Repr

/-- Semantic events emitted on the phaser event bus (`Event.*` in
`EventCenter`). `PLAYER_JOINED` carries the player object and key in the
source; the player object's identity is irrelevant to the claims, so only
the key is modelled. -/
inductive Event where
  | PlayerFieldUpdated (field : String) (value : JSVal) (key : String)
  | PlayerJoined (key : String)
  | PlayerLeft (key : String)
  | ItemUserAdded (item : String) (tableKey : String)
  | ItemUserRemoved (item : String) (tableKey : String)
  | UpdateDialogBubble (clientId : JSVal) (content : JSVal)
  | MyPlayerReady
  | MyPlayerVideoConnected
  deriving DecidableEq, Repr

/-- Redux store dispatches issued by `Network.ts`. -/
inductive StoreAction where
  | setSessionId (id : String)
  | setPlayerNameMap (id : String) (name : JSVal) (userId : String)
  | pushPlayerJoinedMessage (name : JSVal)
  | pushPlayerLeftMessage (name : String)
  | removePlayerNameMap (id : String)
  | pushChatMessage
  | setJoinedRoomData
  | setNumPlayer (n : Nat)
  deriving DecidableEq, Repr

/-- The observable side effects a diff/message handler performs: phaser
event emissions, store dispatches, attachment of a child change listener
(`player.onChange = …`), and the two WebRTC teardown calls. -/
inductive Effect where
  | emit (e : Event)
  | dispatch (a : StoreAction)
  | attachChangeListener (key : String)
  | deleteVideoStream (key : String)
  | deleteOnCalledVideoStream (key : String)
  deriving DecidableEq, Repr

/-! ## Player collection diff handlers (`Network.ts:120-149`) -/

/-- Body of the `changes.forEach` loop inside `player.onChange`
(`Network.ts:125-138`): for one `{ field, value }` change it first emits
`PLAYER_UPDATED(field, value, key)`, then, if `field === "name" &&
value !== ""`, additionally emits `PLAYER_JOINED(player, key)` and
dispatches `setPlayerNameMap` and `pushPlayerJoinedMessage`. -/
def emitForChange (myUserId key : String) (c : FieldChange) : List Effect :=
  .emit (.PlayerFieldUpdated c.field c.value key) ::
    (if c.field = "name" ∧ jsNeqEmptyStr c.value then
      [.emit (.PlayerJoined key),
       .dispatch (.setPlayerNameMap key c.value myUserId),
       .dispatch (.pushPlayerJoinedMessage c.value)]
    else [])

/-- The `player.onChange` listener (`Network.ts:124-139`): processes the
batch of changes of one notification in the order the server listed them. -/
def playerOnChange (myUserId key : String) (changes : List FieldChange) :
    List Effect :=
  changes.flatMap (emitForChange myUserId key)

/-- Effects of processing a sequence of change notifications for one
remote player (each element of `notifs` is one batch delivered to the
listener installed by `players.onAdd`). The listener is stateless: no
previous field value is remembered between notifications. -/
def processChangeNotifs (myUserId key : String)
    (notifs : List (List FieldChange)) : List Effect :=
  notifs.flatMap (playerOnChange myUserId key)

/-- The `players.onAdd` handler (`Network.ts:120-140`): if the added key
is the local session id it returns immediately; otherwise its only effect
is installing the `player.onChange` listener. No event is emitted on add. -/
def playersOnAdd (mySessionId key : String) : List Effect :=
  if key = mySessionId then [] else [.attachChangeListener key]

/-- The `players.onRemove` handler (`Network.ts:143-149`): emits
`PLAYER_LEFT(key)`, calls `webRTC?.deleteVideoStream(key)` and
`webRTC?.deleteOnCalledVideoStream(key)` (no-ops when `webRTC` is unset),
and dispatches `pushPlayerLeftMessage(player.name)` and
`removePlayerNameMap(key)`. There is no self-key check. -/
def playersOnRemove (webRTCPresent : Bool) (key name : String) :
    List Effect :=
  .emit (.PlayerLeft key) ::
    (if webRTCPresent then
      [.deleteVideoStream key, .deleteOnCalledVideoStream key]
    else []) ++
    [.dispatch (.pushPlayerLeftMessage name),
     .dispatch (.removePlayerNameMap key)]

/-- An add or remove notification on the players `MapSchema`. A remove
carries the removed player's last-known `name` (read by the handler). -/
inductive PlayerNotif where
  | add (key : String)
  | remove (key : String) (name : String)
  deriving DecidableEq, Repr

/-- Dispatch of one players-collection notification to the registered
handler. `initialize` installs `webRTC` before registering the handlers,
so `webRTCPresent` is `true` for a live session. -/
def processPlayerNotif (mySessionId : String) : PlayerNotif → List Effect
  | .add key => playersOnAdd mySessionId key
  | .remove key name => playersOnRemove true key name

/-- Effects of a whole sequence of add/remove notifications. -/
def processPlayerNotifs (mySessionId : String) (ns : List PlayerNotif) :
    List Effect :=
  ns.flatMap (processPlayerNotif mySessionId)

/-- Whether an effect is the emission of a `PLAYER_JOINED` event. -/
def isPlayerJoinedEmit : Effect → Bool
  | .emit (.PlayerJoined _) => true
  | _ => false

/-- Whether an effect is the emission of a `PLAYER_JOINED` or
`PLAYER_LEFT` event. -/
def isJoinOrLeftEmit : Effect → Bool
  | .emit (.PlayerJoined _) => true
  | .emit (.PlayerLeft _) => true
  | _ => false

/-- Number of `PLAYER_JOINED` emissions in an effect list. -/
def countPlayerJoined (effs : List Effect) : Nat :=
  (effs.filter isPlayerJoinedEmit).length

/-- Number of `PLAYER_JOINED`/`PLAYER_LEFT` emissions in an effect list. -/
def countJoinOrLeft (effs : List Effect) : Nat :=
  (effs.filter isJoinOrLeftEmit).length

/-- Whether one field change satisfies the source's join-emission test
`field === "name" && value !== ""`. -/
def isJoinEmitting (c : FieldChange) : Bool :=
  c.field = "name" ∧ jsNeqEmptyStr c.value

/-- Whether a players-collection notification is a remove. -/
def isRemoveNotif : PlayerNotif → Bool
  | .remove _ _ => true
  | .add _ => false

/-- The key an add/remove notification refers to. -/
def notifKey : PlayerNotif → String
  | .add key => key
  | .remove key _ => key

/-- Number of add/remove notifications whose key differs from the local
session id (the quantity the spec relates to the join/leave event count). -/
def remoteOpCount (mySessionId : String) (ns : List PlayerNotif) : Nat :=
  (ns.filter (fun n => notifKey n ≠ mySessionId)).length

/-- Extracts the data of a `PLAYER_UPDATED` emission, `none` for any
other effect. -/
def fieldUpdatedOf : Effect → Option (String × JSVal × String)
  | .emit (.PlayerFieldUpdated f v k) => some (f, v, k)
  | _ => none

/-! ## Outbound sends (`Network.ts:273-338`)

Every outbound method goes through `this.room?.send(kind, payload)`. The
room handle is modelled by its identity string; `none` models the state
before any room has been joined (`this.room` undefined). -/

/-- One message handed to `room.send`: its kind and its payload fields. -/
structure SentMsg where
  kind : Message
  payload : List (String × JSVal)
  deriving DecidableEq, Repr

/-- Models `this.room?.send(kind, payload)`: sends nothing when no room has been
joined (optional chaining), otherwise sends exactly one message. -/
def roomSend (room : Option String) (kind : Message)
    (payload : List (String × JSVal)) : List SentMsg :=
  match room with
  | none => []
  | some _ => [⟨kind, payload⟩]

/-- Models `updatePlayer(currentX, currentY, currentAnim)` (`Network.ts:273`). -/
def updatePlayer (room : Option String) (x y : Int) (anim : String) :
    List SentMsg :=
  roomSend room .UPDATE_PLAYER [("x", .num x), ("y", .num y), ("anim", .str anim)]

/-- Models `updatePlayerName(message)` (`Network.ts:283`). -/
def updatePlayerName (room : Option String) (currentName userId : String) :
    List SentMsg :=
  roomSend room .UPDATE_PLAYER_NAME [("name", .str currentName), ("userId", .str userId)]

/-- Models `readyToConnect()` (`Network.ts:292`): sends the signal, then emits
the local `MY_PLAYER_READY` event (the emission is local, not a send). -/
def readyToConnect (room : Option String) : List SentMsg :=
  roomSend room .READY_TO_CONNECT []

/-- Models `videoConnected()` (`Network.ts:298`). -/
def videoConnected (room : Option String) : List SentMsg :=
  roomSend room .VIDEO_CONNECTED []

/-- Models `playerStreamDisconnect(id)` (`Network.ts:304`): sends the signal and
calls `webRTC?.deleteVideoStream(id)` (a no-op before a room is joined,
since `webRTC` is only created in `initialize`). -/
def playerStreamDisconnect (room : Option String) (id : String) :
    List SentMsg :=
  roomSend room .DISCONNECT_STREAM [("clientId", .str id)]

/-- Models `connectToTable(id)` (`Network.ts:309`). -/
def connectToTable (room : Option String) (id : String) : List SentMsg :=
  roomSend room .CONNECT_TO_TABLE [("tableId", .str id)]

/-- Models `updateChairStatus(tableId, chairId, status)` (`Network.ts:313`); the
arguments are optional in the source, hence `JSVal` values. -/
def updateChairStatus (room : Option String) (tableId chairId status : JSVal) :
    List SentMsg :=
  roomSend room .UPDATE_CHAIR_STATUS
    [("tableId", tableId), ("chairId", chairId), ("status", status)]

/-- Models `disconnectFromTable(id)` (`Network.ts:321`). -/
def disconnectFromTable (room : Option String) (id : String) : List SentMsg :=
  roomSend room .DISCONNECT_FROM_TABLE [("tableId", .str id)]

/-- Models `onStopTableTalk(id)` (`Network.ts:324`). -/
def onStopTableTalk (room : Option String) (id : String) : List SentMsg :=
  roomSend room .STOP_TABLE_TALK [("tableId", .str id)]

/-- Models `addChatMessage(content)` (`Network.ts:328`). -/
def addChatMessage (room : Option String) (content : String) : List SentMsg :=
  roomSend room .ADD_CHAT_MESSAGE [("content", .str content)]

/-- Models `checkPrivateMessage(sender)` (`Network.ts:336`). -/
def checkPrivateMessage (room : Option String) (sender : String) :
    List SentMsg :=
  roomSend room .RECEIVE_DM [("sender", .str sender)]

/-- Models `sendPrivateMessage(sender, receiver, content)` (`Network.ts:332`):
sends `SEND_DM {sender, receiver, content}` and then calls
`checkPrivateMessage(receiver)`. -/
def sendPrivateMessage (room : Option String)
    (sender receiver content : String) : List SentMsg :=
  roomSend room .SEND_DM
      [("sender", .str sender), ("receiver", .str receiver),
       ("content", .str content)]
    ++ checkPrivateMessage room receiver

/-! ## Inbound message handlers (`Network.ts:177-203`) -/

/-- An inbound payload as delivered by the transport: either `null` /
`undefined`, or an object with primitive-valued fields. -/
inductive InPayload where
  | null
  | undef
  | obj (fields : List (String × JSVal))
  deriving DecidableEq, Repr

/-- JavaScript object destructuring `({ clientId, content }) => …`
applied to a payload: property access on `null`/`undefined` raises a
`TypeError`; a missing property yields `undefined`. -/
def destructure2 (p : InPayload) (f g : String) :
    Except String (JSVal × JSVal) :=
  match p with
  | .null => .error "TypeError"
  | .undef => .error "TypeError"
  | .obj fields => .ok ((fields.lookup f).getD .undef,
                        (fields.lookup g).getD .undef)

/-- The `ADD_CHAT_MESSAGE` inbound handler (`Network.ts:182-191`):
destructures `{ clientId, content }` from the payload and emits
`UPDATE_DIALOG_BUBBLE(clientId, content)`. `Except.error` models an
exception escaping the handler. -/
def addChatMessageHandler (p : InPayload) : Except String (List Effect) := do
  let (clientId, content) ← destructure2 p "clientId" "content"
  pure [.emit (.UpdateDialogBubble clientId content)]

/-! ## Coarse state-change handler (`Network.ts:204-209`) -/

/-- The part of the room state snapshot the `onStateChange` handler
reads: the players map, modelled as its list of entries
(key, player name). -/
structure TownState where
  players : List (String × String)
  deriving DecidableEq, Repr

/-- The `onStateChange` handler: it ignores the `state` argument passed
to the callback and reads `this.room?.state.players.size`; if the room is
unset it returns, otherwise it dispatches `setNumPlayer(size)`. -/
def onStateChangeHandler (_stateArg : TownState) (room : Option TownState) :
    List Effect :=
  match room with
  | none => []
  | some st => [.dispatch (.setNumPlayer st.players.length)]

/-! ## The `initialize()` step sequence (`Network.ts:109-210`) -/

/-- The statements of `initialize()`, in source order, at the granularity
the ordering claim needs. -/
inductive InitStep where
  | lobbyLeave
  | setMySessionId
  | dispatchSetSessionId
  | createWebRTC
  | registerPlayersOnAdd
  | registerPlayersOnRemove
  | registerTablesOnAdd
  | registerChatMessagesOnAdd
  | registerOnMessageSendRoomData
  | registerOnMessageAddChatMessage
  | registerOnMessageDisconnectStream
  | registerOnMessageStopTableTalk
  | registerOnMessageReceiveDM
  | registerOnStateChange
  deriving DecidableEq, Repr

/-- The body of `initialize()` as the sequence of its steps, in the order
they appear in the source (`Network.ts:112-209`; the `console.log` calls
are omitted). -/
def initSteps : List InitStep :=
  [.lobbyLeave, .setMySessionId, .dispatchSetSessionId, .createWebRTC,
   .registerPlayersOnAdd, .registerPlayersOnRemove, .registerTablesOnAdd,
   .registerChatMessagesOnAdd, .registerOnMessageSendRoomData,
   .registerOnMessageAddChatMessage, .registerOnMessageDisconnectStream,
   .registerOnMessageStopTableTalk, .registerOnMessageReceiveDM,
   .registerOnStateChange]

/-- Whether a step registers a collection diff handler, an inbound
message handler, or the coarse state-change handler. -/
def isHandlerRegistration : InitStep → Bool
  | .registerPlayersOnAdd => true
  | .registerPlayersOnRemove => true
  | .registerTablesOnAdd => true
  | .registerChatMessagesOnAdd => true
  | .registerOnMessageSendRoomData => true
  | .registerOnMessageAddChatMessage => true
  | .registerOnMessageDisconnectStream => true
  | .registerOnMessageStopTableTalk => true
  | .registerOnMessageReceiveDM => true
  | .registerOnStateChange => true
  | _ => false

/-! ## Join resolution (`Network.ts:84-106`)

Each of `joinOrCreatePublic`, `joinCustomById` and `createCustom` runs
`this.room = await this.client.…; this.initialize()`. In the
single-threaded event-loop model a join's effect on `this.room` happens
when its awaited promise resolves; initiating a join has no effect on
`this.room`. There is no code comparing the resolving join against a
newer one: every resolution assigns unconditionally. -/

/-- An event in the life of the join methods: initiating join number `j`,
or join number `j` resolving with room handle `r` (at which point the
method body continues: `this.room = r; this.initialize()`). -/
inductive JoinEvent where
  | initiate (j : Nat)
  | resolve (j : Nat) (r : String)
  deriving DecidableEq, Repr

/-- Effect of one join event on the active room handle `this.room`. -/
def stepJoin (room : Option String) : JoinEvent → Option String
  | .initiate _ => room
  | .resolve _ r => some r

/-- The active room handle after a sequence of join events. -/
def runJoins (room : Option String) (es : List JoinEvent) : Option String :=
  es.foldl stepJoin room

/-! ## Helper lemmas -/

/-- Counting `PLAYER_JOINED` emissions distributes over concatenation. -/
theorem countPlayerJoined_append (a b : List Effect) :
    countPlayerJoined (a ++ b) = countPlayerJoined a + countPlayerJoined b := by
  simp [countPlayerJoined, List.filter_append]

/-- Counting join/left emissions distributes over concatenation. -/
theorem countJoinOrLeft_append (a b : List Effect) :
    countJoinOrLeft (a ++ b) = countJoinOrLeft a + countJoinOrLeft b := by
  simp [countJoinOrLeft, List.filter_append]

/-- One field change contributes one `PLAYER_JOINED` emission exactly
when it passes the source's `field === "name" && value !== ""` test. -/
theorem countPlayerJoined_emitForChange (u k : String) (c : FieldChange) :
    countPlayerJoined (emitForChange u k c)
      = if isJoinEmitting c then 1 else 0 := by
  by_cases h : c.field = "name" ∧ jsNeqEmptyStr c.value <;>
    simp [emitForChange, countPlayerJoined, isPlayerJoinedEmit, isJoinEmitting, h]

/-- One change notification contributes one `PLAYER_JOINED` emission per
join-emitting change in its batch. -/
theorem countPlayerJoined_playerOnChange (u k : String)
    (cs : List FieldChange) :
    countPlayerJoined (playerOnChange u k cs)
      = (cs.filter isJoinEmitting).length := by
  induction cs with
  | nil => rfl
  | cons c rest ih =>
    by_cases h : isJoinEmitting c <;>
      simp [playerOnChange, List.flatMap_cons, countPlayerJoined_append,
        countPlayerJoined_emitForChange, List.filter_cons, h] at * <;>
      omega

/-- An add notification emits no join/left event. -/
theorem countJoinOrLeft_playersOnAdd (sid k : String) :
    countJoinOrLeft (playersOnAdd sid k) = 0 := by
  by_cases h : k = sid <;>
    simp [playersOnAdd, countJoinOrLeft, isJoinOrLeftEmit, h]

/-- A remove notification emits exactly one join/left event. -/
theorem countJoinOrLeft_playersOnRemove (w : Bool) (k n : String) :
    countJoinOrLeft (playersOnRemove w k n) = 1 := by
  cases w <;>
    simp [playersOnRemove, countJoinOrLeft, isJoinOrLeftEmit]

/-- The generic events extracted from one change's effects are exactly
that change's data. -/
theorem filterMap_fieldUpdatedOf_emitForChange (u k : String)
    (c : FieldChange) :
    (emitForChange u k c).filterMap fieldUpdatedOf
      = [(c.field, c.value, k)] := by
  by_cases h : c.field = "name" ∧ jsNeqEmptyStr c.value <;>
    simp [emitForChange, fieldUpdatedOf, h]

/-! ## Claim C1 -/

/-- Claim C1, refuted at a concrete input: the derived `PLAYER_JOINED`
event is NOT emitted at most once per player. The handler at
`Network.ts:130` tests only `field === "name" && value !== ""` and keeps
no record of the previous value, so after a first notification setting
`name` to `"Alice"`, a second notification reassigning `name` to `"Bob"`
emits a second `PLAYER_JOINED`: the trace contains two such emissions,
not at most one. -/
theorem claim1_counterexample :
    ¬ countPlayerJoined (processChangeNotifs "u1" "s2"
        [[⟨"name", JSVal.str "Alice"⟩], [⟨"name", JSVal.str "Bob"⟩]]) ≤ 1 := by
  decide

/-- Claim C1 as amended: a `PLAYER_JOINED` event is emitted for every
name change whose new value is non-empty — detection is "new value is
non-empty", not "value transitions from empty to non-empty" — so a later
reassignment of `name` to a different non-empty value emits another
`PLAYER_JOINED` alongside the generic field-update event. Formally, over
any sequence of change notifications for a remote player, the number of
`PLAYER_JOINED` emissions equals the number of delivered changes passing
the `field === "name" && value !== ""` test. -/
theorem claim1_amended (myUserId key : String)
    (notifs : List (List FieldChange)) :
    countPlayerJoined (processChangeNotifs myUserId key notifs)
      = ((notifs.flatMap id).filter isJoinEmitting).length := by
  induction notifs with
  | nil => rfl
  | cons cs rest ih =>
    simp [processChangeNotifs, List.flatMap_cons, countPlayerJoined_append,
      countPlayerJoined_playerOnChange, List.filter_append, ih] at *
    omega

/-! ## Claim C2 -/

/-- Claim C2, refuted at a concrete input: with local session id `"s1"`,
the single add notification for remote key `"s2"` emits zero
`PLAYER_JOINED`/`PLAYER_LEFT` events (the `players.onAdd` handler only
attaches a change listener), while the claim demands one event for this
remote-keyed operation. -/
theorem claim2_counterexample :
    ¬ countJoinOrLeft (processPlayerNotifs "s1" [PlayerNotif.add "s2"])
        = remoteOpCount "s1" [PlayerNotif.add "s2"] := by
  decide

/-- Claim C2 as amended: over any sequence of add/remove notifications,
the number of `PLAYER_JOINED`/`PLAYER_LEFT` events emitted equals the
number of REMOVE operations, regardless of their key: an add emits no
join event (it only attaches a change listener, and only when the key
differs from the local session id), while a remove always emits exactly
one `PLAYER_LEFT`, including a remove whose key equals the local session
id (the `players.onRemove` handler has no self-key check). -/
theorem claim2_amended (mySessionId : String) (ns : List PlayerNotif) :
    countJoinOrLeft (processPlayerNotifs mySessionId ns)
      = (ns.filter isRemoveNotif).length := by
  induction ns with
  | nil => rfl
  | cons n rest ih =>
    cases n with
    | add key =>
      simp [processPlayerNotifs, processPlayerNotif, List.flatMap_cons,
        countJoinOrLeft_append, countJoinOrLeft_playersOnAdd,
        List.filter_cons, isRemoveNotif, ih] at *
    | remove key name =>
      simp [processPlayerNotifs, processPlayerNotif, List.flatMap_cons,
        countJoinOrLeft_append, countJoinOrLeft_playersOnRemove,
        List.filter_cons, isRemoveNotif, ih] at *
      omega

/-! ## Claim C3 -/

/-- Claim C3, refuted at a concrete input: join 1 is initiated, then join
2; join 2 resolves first (with room `"r2"`), then join 1 resolves late
(with room `"r1"`). The claim states the earlier, late-resolving join is
discarded without becoming active, but each resolution executes
`this.room = await …; this.initialize()` unconditionally, so the
late-resolving earlier join's room `"r1"` overwrites `"r2"` and becomes
the active room. -/
theorem claim3_counterexample :
    runJoins none
      [JoinEvent.initiate 1, JoinEvent.initiate 2,
       JoinEvent.resolve 2 "r2", JoinEvent.resolve 1 "r1"]
      = some "r1" := rfl

/-- Claim C3 as amended: the session of the join that RESOLVES last
always becomes the active room, regardless of which join was initiated
first — an earlier-initiated join that resolves late is not discarded but
overwrites the newer session (and runs its initialization); initiating a
join has no effect on the active room by itself. -/
theorem claim3_amended (room : Option String) (es : List JoinEvent)
    (j k : Nat) (r : String) :
    runJoins room (es ++ [JoinEvent.resolve j r]) = some r ∧
    runJoins room (es ++ [JoinEvent.initiate k]) = runJoins room es := by
  constructor <;> simp [runJoins, List.foldl_append, stepJoin]

/-! ## Claim C4 -/

/-- Claim C4, confirmed: whatever notifications preceded it, processing a
remove notification for key `key` appends exactly the `players.onRemove`
effects, and those effects include the `PLAYER_LEFT(key)` emission and
both WebRTC stream-teardown calls for `key`. The handler takes no input
describing prior disconnect-stream messages, so the teardown runs even
when no such message was ever received for `key`. -/
theorem claim4_confirmed (mySessionId key name : String)
    (ns : List PlayerNotif) :
    processPlayerNotifs mySessionId (ns ++ [PlayerNotif.remove key name])
        = processPlayerNotifs mySessionId ns ++ playersOnRemove true key name
    ∧ Effect.emit (.PlayerLeft key) ∈ playersOnRemove true key name
    ∧ Effect.deleteVideoStream key ∈ playersOnRemove true key name
    ∧ Effect.deleteOnCalledVideoStream key ∈ playersOnRemove true key name := by
  refine ⟨?_, ?_, ?_, ?_⟩ <;>
    simp [processPlayerNotifs, List.flatMap_append, processPlayerNotif,
      playersOnRemove]

/-! ## Claim C5 -/

/-- Claim C5, refuted at a concrete input: a `null` payload delivered to
the `ADD_CHAT_MESSAGE` inbound handler is not a non-fatal decode failure.
The handler destructures `({ clientId, content })` directly, and
destructuring `null` raises a `TypeError` instead of returning normally. -/
theorem claim5_counterexample :
    addChatMessageHandler InPayload.null = Except.error "TypeError" := rfl

/-- Claim C5 as amended: the `ADD_CHAT_MESSAGE` handler performs no
payload validation at all. An object payload missing the `clientId` /
`content` fields does not raise, but the notification is not dropped
either: the handler emits `UPDATE_DIALOG_BUBBLE` with `undefined` in
place of each missing field. A `null` or `undefined` payload raises a
`TypeError` out of the handler. -/
theorem claim5_amended (fields : List (String × JSVal)) :
    addChatMessageHandler (.obj fields)
        = Except.ok [Effect.emit (.UpdateDialogBubble
            ((fields.lookup "clientId").getD .undef)
            ((fields.lookup "content").getD .undef))]
    ∧ addChatMessageHandler .undef = Except.error "TypeError" := ⟨rfl, rfl⟩

/-! ## Claim C6 -/

/-- Claim C6, confirmed: in the `initialize()` step sequence, the lobby
release (`this.lobby.leave()`) and the recording of the local session id
(`this.mySessionId = this.room.sessionId`) both occur, and no collection
diff handler, inbound message handler, or coarse state-change handler is
registered before either of them; handler registrations do occur later in
the sequence. Hence every registered handler is installed only after the
local session identity is set. -/
theorem claim6_confirmed :
    InitStep.lobbyLeave ∈ initSteps
    ∧ InitStep.setMySessionId ∈ initSteps
    ∧ (initSteps.takeWhile (fun s => s ≠ InitStep.lobbyLeave)).all
        (fun s => !isHandlerRegistration s) = true
    ∧ (initSteps.takeWhile (fun s => s ≠ InitStep.setMySessionId)).all
        (fun s => !isHandlerRegistration s) = true
    ∧ initSteps.any isHandlerRegistration = true := by
  decide

/-! ## Claim C7 -/

/-- Claim C7, confirmed: for one change notification of a single remote
player, the `PLAYER_UPDATED` emissions extracted in order are exactly one
per delivered change, carrying that change's field and value, in the
order the server listed the fields; moreover each change's effect list
starts with its generic `PLAYER_UPDATED` emission, and when the change
also triggers the derived join event, `PLAYER_JOINED` appears strictly
after it (in the tail of that change's effects). -/
theorem claim7_confirmed (myUserId key : String)
    (changes : List FieldChange) :
    ((playerOnChange myUserId key changes).filterMap fieldUpdatedOf
        = changes.map (fun c => (c.field, c.value, key)))
    ∧ ∀ c ∈ changes,
        (emitForChange myUserId key c).head?
            = some (Effect.emit (.PlayerFieldUpdated c.field c.value key))
        ∧ (isJoinEmitting c = true →
            (emitForChange myUserId key c).tail
              = [Effect.emit (.PlayerJoined key),
                 Effect.dispatch (.setPlayerNameMap key c.value myUserId),
                 Effect.dispatch (.pushPlayerJoinedMessage c.value)]) := by
  constructor
  · induction changes with
    | nil => rfl
    | cons c rest ih =>
      simp [playerOnChange, List.flatMap_cons, List.filterMap_append,
        filterMap_fieldUpdatedOf_emitForChange] at *
      exact ih
  · intro c _
    constructor
    · by_cases h : c.field = "name" ∧ jsNeqEmptyStr c.value <;>
        simp [emitForChange, h]
    · intro hj
      have h : c.field = "name" ∧ jsNeqEmptyStr c.value := by
        simpa [isJoinEmitting] using hj
      simp [emitForChange, h]

/-- Witness for claim C7 at a concrete input: one notification changing
`name` to `"Carol"` for remote key `"s2"` yields exactly one
`PLAYER_UPDATED("name","Carol","s2")` and the `PLAYER_JOINED` emission in
the tail of that change's effects. -/
theorem claim7_witness :
    ((playerOnChange "u1" "s2" [⟨"name", JSVal.str "Carol"⟩]).filterMap
          fieldUpdatedOf
        = [("name", JSVal.str "Carol", "s2")])
    ∧ (emitForChange "u1" "s2" ⟨"name", JSVal.str "Carol"⟩).tail
        = [Effect.emit (.PlayerJoined "s2"),
           Effect.dispatch (.setPlayerNameMap "s2" (JSVal.str "Carol") "u1"),
           Effect.dispatch (.pushPlayerJoinedMessage (JSVal.str "Carol"))] := by
  refine ⟨(claim7_confirmed "u1" "s2" [⟨"name", JSVal.str "Carol"⟩]).1, ?_⟩
  exact ((claim7_confirmed "u1" "s2" [⟨"name", JSVal.str "Carol"⟩]).2
    ⟨"name", JSVal.str "Carol"⟩ (by decide)).2 (by decide)

/-! ## Claim C8 -/

/-- Claim C8, confirmed: the coarse `onStateChange` handler ignores which
collection changed (it is invariant in the state argument passed to the
callback) and, whenever a room is active, dispatches exactly
`setNumPlayer(n)` with `n` the current size of the players map; with no
active room it does nothing. -/
theorem claim8_confirmed (stNow stA stB : TownState) :
    onStateChangeHandler stA (some stNow)
        = [Effect.dispatch (.setNumPlayer stNow.players.length)]
    ∧ onStateChangeHandler stA (some stNow)
        = onStateChangeHandler stB (some stNow)
    ∧ onStateChangeHandler stA none = [] := ⟨rfl, rfl, rfl⟩

/-! ## Claim C9 -/

/-- Claim C9, confirmed: every outbound send method goes through the
optional-chained `this.room?.send`, so invoked before any room has been
joined (`this.room` undefined) each of them returns normally and sends no
message. -/
theorem claim9_confirmed (x y : Int)
    (anim name userId id content sender receiver : String)
    (tid cid status : JSVal) :
    updatePlayer none x y anim = []
    ∧ updatePlayerName none name userId = []
    ∧ readyToConnect none = []
    ∧ videoConnected none = []
    ∧ playerStreamDisconnect none id = []
    ∧ connectToTable none id = []
    ∧ updateChairStatus none tid cid status = []
    ∧ disconnectFromTable none id = []
    ∧ onStopTableTalk none id = []
    ∧ addChatMessage none content = []
    ∧ sendPrivateMessage none sender receiver content = []
    ∧ checkPrivateMessage none sender = [] :=
  ⟨rfl, rfl, rfl, rfl, rfl, rfl, rfl, rfl, rfl, rfl, rfl, rfl⟩

/-! ## Claim C10 -/

/-- Claim C10, confirmed: with an active room, `sendPrivateMessage`
sends exactly two messages in order — first `SEND_DM` with payload
`{sender, receiver, content}`, then (via `checkPrivateMessage(receiver)`)
`RECEIVE_DM` whose `sender` field is the receiver argument. -/
theorem claim10_confirmed (r sender receiver content : String) :
    sendPrivateMessage (some r) sender receiver content
      = [⟨Message.SEND_DM,
            [("sender", JSVal.str sender), ("receiver", JSVal.str receiver),
             ("content", JSVal.str content)]⟩,
         ⟨Message.RECEIVE_DM, [("sender", JSVal.str receiver)]⟩] := rfl

end Momstown
